import Mathlib

/-!
Shallow embedding of the productivity-analysis application
(src/App.tsx together with the type declarations in src/unnamed/part_000).

Numbers: the source computes with JavaScript doubles; here arithmetic is
idealized over `ℚ` (exact rationals), the standard reading of the spec's
real-valued formulas.  All divisions the code performs are guarded by the
code itself, so the `ℚ` convention `x / 0 = 0` is never relied upon by the
embedded computations.
-/

namespace Produtividade

/-- The eight free-text input fields (interface `InputData` in
src/unnamed/part_000). -/
structure InputData where
  totalHours : String
  productiveHours : String
  plannedTasks : String
  completedTasks : String
  valuePerHour : String
  estimatedCostPerDistraction : String
  distractions : String
  recoveryTime : String
deriving DecidableEq

/-- The six derived metrics (interface `CalculationResults` in
src/unnamed/part_000). -/
structure CalculationResults where
  productivityRate : ℚ
  taskCompletionRate : ℚ
  efficiencyScore : ℚ
  timeLost : ℚ
  valueLost : ℚ
  taskEfficiency : ℚ
deriving DecidableEq

/-- Numeric value of a list of decimal digit characters. -/
def digitsVal (ds : List Char) : Nat :=
  ds.foldl (fun a c => a * 10 + (c.toNat - 48)) 0

/-- The pieces of a decimal literal: sign, integer digits, fraction digits
(with their count, to recover the scale) and exponent. -/
structure FloatLit where
  isNeg : Bool
  intPart : Nat
  fracPart : Nat
  fracLen : Nat
  exp : Int
deriving DecidableEq

/-- Value of the exponent part of a decimal literal (an optional sign
followed by digits); an exponent with no digits contributes 0, as in
JavaScript, where `parseFloat` stops before an incomplete exponent. -/
def expVal (cs : List Char) : Int :=
  let signAndRest : Int × List Char :=
    match cs with
    | '-' :: rest => (-1, rest)
    | '+' :: rest => (1, rest)
    | _ => (1, cs)
  let ds := signAndRest.2.takeWhile Char.isDigit
  if ds.isEmpty then 0 else signAndRest.1 * (digitsVal ds : Int)

/-- Model of JavaScript `parseFloat`: skip leading whitespace, read an
optional sign, integer digits, an optional fraction and an optional
exponent, taking the longest valid prefix; `none` when no digit is found
(JavaScript returns `NaN` there).  The non-finite literal `Infinity`,
which has no rational value, is outside this model. -/
def jsParseFloat (s : String) : Option FloatLit :=
  let cs0 := s.data.dropWhile Char.isWhitespace
  let signAndRest : Bool × List Char :=
    match cs0 with
    | '-' :: rest => (true, rest)
    | '+' :: rest => (false, rest)
    | _ => (false, cs0)
  let intDs := signAndRest.2.takeWhile Char.isDigit
  let afterInt := signAndRest.2.dropWhile Char.isDigit
  let fracAndRest : List Char × List Char :=
    match afterInt with
    | '.' :: rest => (rest.takeWhile Char.isDigit, rest.dropWhile Char.isDigit)
    | _ => ([], afterInt)
  if intDs.isEmpty ∧ fracAndRest.1.isEmpty then
    none
  else
    let e : Int :=
      match fracAndRest.2 with
      | 'e' :: rest => expVal rest
      | 'E' :: rest => expVal rest
      | _ => 0
    some ⟨signAndRest.1, digitsVal intDs, digitsVal fracAndRest.1, fracAndRest.1.length, e⟩

/-- The rational value of a parsed decimal literal. -/
def FloatLit.toRat (l : FloatLit) : ℚ :=
  (if l.isNeg then -1 else 1) * ((l.intPart : ℚ) + (l.fracPart : ℚ) / (10 : ℚ) ^ l.fracLen) *
    (10 : ℚ) ^ l.exp

/-- The idiom `parseFloat(x) || 0` used throughout src/App.tsx: an
unparsable field (NaN) yields 0; `x || 0` also maps 0 to 0, which is the
identity here. -/
def parseFloatOr0 (s : String) : ℚ :=
  ((jsParseFloat s).map FloatLit.toRat).getD 0

/-- The metric formulas of `calculateResults` (src/App.tsx lines 59-72),
on already-parsed values. -/
def computeMetrics (totalHours productiveHours plannedTasks completedTasks
    valuePerHour distractions recoveryTime : ℚ) : CalculationResults :=
  let productivityRate := productiveHours / totalHours * 100
  let taskCompletionRate := (if plannedTasks > 0 then completedTasks / plannedTasks else 0) * 100
  let timeLost := distractions * recoveryTime / 60
  let valueLost := timeLost * valuePerHour
  let taskEfficiency := if productiveHours > 0 then completedTasks / productiveHours else 0
  let distractionManagementScore :=
    if productiveHours > 0 then max 0 (1 - timeLost / productiveHours) * 10 else 0
  let efficiencyScore :=
    productivityRate / 10 * 0.4 + taskCompletionRate / 10 * 0.4 +
      distractionManagementScore * 0.2
  ⟨productivityRate, taskCompletionRate, efficiencyScore, timeLost, valueLost, taskEfficiency⟩

/-- `calculateResults` (src/App.tsx lines 46-82): parse the seven numeric
fields it reads (`estimatedCostPerDistraction` is never parsed there),
return `none` when parsed total hours ≤ 0, otherwise the full metrics
record. -/
def calculateResults (inputs : InputData) : Option CalculationResults :=
  if parseFloatOr0 inputs.totalHours ≤ 0 then
    none
  else
    some (computeMetrics (parseFloatOr0 inputs.totalHours)
      (parseFloatOr0 inputs.productiveHours)
      (parseFloatOr0 inputs.plannedTasks)
      (parseFloatOr0 inputs.completedTasks)
      (parseFloatOr0 inputs.valuePerHour)
      (parseFloatOr0 inputs.distractions)
      (parseFloatOr0 inputs.recoveryTime))

/-- One improvement-scenario row (interface `ImprovementScenario` in
src/unnamed/part_000), with the numeric value of each displayed cell; the
source formats these numbers into strings (`toFixed`, currency), and the
`gain` cell of the first row carries a literal "-" prefix, modelled here
as a negative sign. -/
structure Scenario where
  area : String
  current : ℚ
  optimized : ℚ
  gain : ℚ
  addedValue : ℚ
deriving DecidableEq

/-- `improvementScenarios` (src/App.tsx lines 84-114): empty when no
results, otherwise exactly the three fixed rows. -/
def improvementScenarios (inputs : InputData) (results : Option CalculationResults) :
    List Scenario :=
  match results with
  | none => []
  | some r =>
    [ { area := "Reduzir Distrações"
        current := parseFloatOr0 inputs.distractions
        optimized := parseFloatOr0 inputs.distractions * 0.5
        gain := -(parseFloatOr0 inputs.distractions * 0.5)
        addedValue := parseFloatOr0 inputs.distractions * 0.5 * parseFloatOr0 inputs.recoveryTime / 60 *
          parseFloatOr0 inputs.valuePerHour },
      { area := "Aumentar Tempo Produtivo"
        current := parseFloatOr0 inputs.productiveHours
        optimized := parseFloatOr0 inputs.productiveHours * 1.15
        gain := parseFloatOr0 inputs.productiveHours * 0.15
        addedValue := parseFloatOr0 inputs.productiveHours * 0.15 * parseFloatOr0 inputs.valuePerHour },
      { area := "Eficiência da Tarefa"
        current := r.taskEfficiency
        optimized := r.taskEfficiency * 1.20
        gain := r.taskEfficiency * 0.20
        addedValue := parseFloatOr0 inputs.productiveHours * 0.20 * parseFloatOr0 inputs.valuePerHour } ]

/-- Which of the eight text fields an edit targets. -/
inductive Field
  | totalHours | productiveHours | plannedTasks | completedTasks
  | valuePerHour | estimatedCostPerDistraction | distractions | recoveryTime
deriving DecidableEq

/-- Functional update of one field, as `setInputs(prev => ({...prev, [name]: value}))`
in `handleInputChange` (src/App.tsx lines 32-39). -/
def setField (i : InputData) (f : Field) (v : String) : InputData :=
  match f with
  | .totalHours => { i with totalHours := v }
  | .productiveHours => { i with productiveHours := v }
  | .plannedTasks => { i with plannedTasks := v }
  | .completedTasks => { i with completedTasks := v }
  | .valuePerHour => { i with valuePerHour := v }
  | .estimatedCostPerDistraction => { i with estimatedCostPerDistraction := v }
  | .distractions => { i with distractions := v }
  | .recoveryTime => { i with recoveryTime := v }

/-- The component state of `App` (src/App.tsx lines 27-30): the four
`useState` hooks. -/
structure AppState where
  inputs : InputData
  results : Option CalculationResults
  decimals : Nat
  showImprovements : Bool
deriving DecidableEq

/-- `initialInputData` (src/App.tsx lines 6-15): all eight fields empty. -/
def initialInputData : InputData :=
  ⟨"", "", "", "", "", "", "", ""⟩

/-- The initial hook values (src/App.tsx lines 27-30). -/
def initialState : AppState :=
  ⟨initialInputData, none, 2, true⟩

/-- The user actions the component handles. -/
inductive Event
  | editField (f : Field) (v : String)
  | toggleImprovements (b : Bool)
  | setDecimals (n : Nat)
  | calculate
  | reset

/-- One step of the application: `handleInputChange` (text branch and
checkbox branch), the decimals `<select>`, the Calcular button
(`calculateResults`) and the Redefinir button (`handleReset`). -/
def step (s : AppState) (e : Event) : AppState :=
  match e with
  | .editField f v => { s with inputs := setField s.inputs f v }
  | .toggleImprovements b => { s with showImprovements := b }
  | .setDecimals n => { s with decimals := n }
  | .calculate => { s with results := calculateResults s.inputs }
  | .reset => { s with inputs := initialInputData, results := none }

/-- States reachable from the initial state by user actions. -/
inductive Reachable : AppState → Prop
  | init : Reachable initialState
  | next (s : AppState) (e : Event) : Reachable s → Reachable (step s e)

/-- Evaluation of `parseFloatOr0` through a parsed literal. -/
theorem parseFloatOr0_eq (s : String) (l : FloatLit) (h : jsParseFloat s = some l) :
    parseFloatOr0 s = l.toRat := by
  rw [parseFloatOr0, h]; rfl

theorem parse_empty : parseFloatOr0 "" = 0 := by
  rw [parseFloatOr0, show jsParseFloat "" = none from by decide]; rfl

theorem parse_zero : parseFloatOr0 "0" = 0 := by
  rw [parseFloatOr0_eq "0" ⟨false, 0, 0, 0, 0⟩ (by decide)]
  norm_num [FloatLit.toRat]

theorem parse_one : parseFloatOr0 "1" = 1 := by
  rw [parseFloatOr0_eq "1" ⟨false, 1, 0, 0, 0⟩ (by decide)]
  norm_num [FloatLit.toRat]

theorem parse_three : parseFloatOr0 "3" = 3 := by
  rw [parseFloatOr0_eq "3" ⟨false, 3, 0, 0, 0⟩ (by decide)]
  norm_num [FloatLit.toRat]

theorem parse_four : parseFloatOr0 "4" = 4 := by
  rw [parseFloatOr0_eq "4" ⟨false, 4, 0, 0, 0⟩ (by decide)]
  norm_num [FloatLit.toRat]

theorem parse_five : parseFloatOr0 "5" = 5 := by
  rw [parseFloatOr0_eq "5" ⟨false, 5, 0, 0, 0⟩ (by decide)]
  norm_num [FloatLit.toRat]

theorem parse_ten : parseFloatOr0 "10" = 10 := by
  rw [parseFloatOr0_eq "10" ⟨false, 10, 0, 0, 0⟩ (by decide)]
  norm_num [FloatLit.toRat]

theorem parse_twenty : parseFloatOr0 "20" = 20 := by
  rw [parseFloatOr0_eq "20" ⟨false, 20, 0, 0, 0⟩ (by decide)]
  norm_num [FloatLit.toRat]

/-- Full evaluation of `calculateResults` on the sample input
totalHours 10, productiveHours 5, plannedTasks 4, completedTasks 3,
valuePerHour 20, distractions 10, recoveryTime 5 minutes. -/
theorem calc_sample :
    calculateResults ⟨"10", "5", "4", "3", "20", "", "10", "5"⟩ =
      some ⟨50, 75, 20 / 3, 5 / 6, 50 / 3, 3 / 5⟩ := by
  norm_num [calculateResults, computeMetrics, parse_ten, parse_five, parse_four, parse_three,
    parse_twenty, parse_empty, max_def]

/-- When `calculateResults` returns a record, the guard passed and the
record is exactly `computeMetrics` of the parsed fields. -/
theorem calculateResults_some (inp : InputData) (r : CalculationResults)
    (h : calculateResults inp = some r) :
    ¬ parseFloatOr0 inp.totalHours ≤ 0 ∧
      r = computeMetrics (parseFloatOr0 inp.totalHours) (parseFloatOr0 inp.productiveHours)
        (parseFloatOr0 inp.plannedTasks) (parseFloatOr0 inp.completedTasks)
        (parseFloatOr0 inp.valuePerHour) (parseFloatOr0 inp.distractions)
        (parseFloatOr0 inp.recoveryTime) := by
  rw [calculateResults] at h
  split_ifs at h with hg
  exact ⟨hg, (Option.some.inj h).symm⟩

/-- C1: whenever the parsed total hours value is ≤ 0, `calculateResults`
returns no metrics record; empty text parses to 0, and so does any text
`parseFloat` rejects. -/
theorem C1_guard_absent :
    (∀ inp : InputData, parseFloatOr0 inp.totalHours ≤ 0 → calculateResults inp = none) ∧
    parseFloatOr0 "" = 0 ∧
    (∀ s : String, jsParseFloat s = none → parseFloatOr0 s = 0) := by
  refine ⟨fun inp h => ?_, parse_empty, fun s h => ?_⟩
  · rw [calculateResults, if_pos h]
  · rw [parseFloatOr0, h]; rfl

theorem C1_guard_absent_witness :
    calculateResults ⟨"", "", "", "", "", "", "", ""⟩ = none ∧
    calculateResults ⟨"0", "5", "4", "3", "20", "", "10", "5"⟩ = none :=
  ⟨C1_guard_absent.1 ⟨"", "", "", "", "", "", "", ""⟩ (le_of_eq parse_empty),
   C1_guard_absent.1 ⟨"0", "5", "4", "3", "20", "", "10", "5"⟩ (le_of_eq parse_zero)⟩

/-- C2: for every input passing the guard, the productivity rate is
productiveHours / totalHours × 100. -/
theorem C2_productivityRate (inp : InputData) (r : CalculationResults)
    (h : calculateResults inp = some r) :
    r.productivityRate =
      parseFloatOr0 inp.productiveHours / parseFloatOr0 inp.totalHours * 100 := by
  obtain ⟨-, rfl⟩ := calculateResults_some inp r h
  rfl

theorem C2_productivityRate_witness :
    calculateResults ⟨"10", "5", "4", "3", "20", "", "10", "5"⟩ =
      some ⟨50, 75, 20 / 3, 5 / 6, 50 / 3, 3 / 5⟩ ∧
    (50 : ℚ) = parseFloatOr0 "5" / parseFloatOr0 "10" * 100 :=
  ⟨calc_sample, C2_productivityRate _ _ calc_sample⟩

/-- C3: for every input passing the guard, timeLost is
distractions × recoveryMinutes / 60 hours and valueLost is
timeLost × valuePerHour. -/
theorem C3_timeLost_valueLost (inp : InputData) (r : CalculationResults)
    (h : calculateResults inp = some r) :
    r.timeLost = parseFloatOr0 inp.distractions * parseFloatOr0 inp.recoveryTime / 60 ∧
    r.valueLost = r.timeLost * parseFloatOr0 inp.valuePerHour := by
  obtain ⟨-, rfl⟩ := calculateResults_some inp r h
  exact ⟨rfl, rfl⟩

theorem C3_timeLost_valueLost_witness :
    calculateResults ⟨"10", "5", "4", "3", "20", "", "10", "5"⟩ =
      some ⟨50, 75, 20 / 3, 5 / 6, 50 / 3, 3 / 5⟩ ∧
    ((5 / 6 : ℚ) = parseFloatOr0 "10" * parseFloatOr0 "5" / 60 ∧
      (50 / 3 : ℚ) = 5 / 6 * parseFloatOr0 "20") ∧
    (5 / 6 : ℚ) = 50 / 60 :=
  ⟨calc_sample, C3_timeLost_valueLost _ _ calc_sample, by norm_num⟩

/-- C5: both divisions are guarded — the task completion rate is 0
whenever plannedTasks parses to 0 (whatever completedTasks is), and the
task efficiency is 0 whenever productiveHours parses to 0. -/
theorem C5_division_guards (inp : InputData) (r : CalculationResults)
    (h : calculateResults inp = some r) :
    (parseFloatOr0 inp.plannedTasks = 0 → r.taskCompletionRate = 0) ∧
    (parseFloatOr0 inp.productiveHours = 0 → r.taskEfficiency = 0) := by
  obtain ⟨-, rfl⟩ := calculateResults_some inp r h
  constructor
  · intro hpl
    show (if _ > 0 then _ / _ else 0) * 100 = 0
    rw [hpl, if_neg (lt_irrefl 0), zero_mul]
  · intro hp
    show (if _ > 0 then _ / _ else _) = 0
    rw [hp, if_neg (lt_irrefl 0)]

theorem C5_division_guards_witness :
    calculateResults ⟨"10", "0", "0", "5", "", "", "", ""⟩ =
      some ⟨0, 0, 0, 0, 0, 0⟩ ∧
    (0 : ℚ) = 0 ∧ (0 : ℚ) = 0 := by
  have h : calculateResults ⟨"10", "0", "0", "5", "", "", "", ""⟩ =
      some ⟨0, 0, 0, 0, 0, 0⟩ := by
    norm_num [calculateResults, computeMetrics, parse_ten, parse_zero, parse_five, parse_empty]
  exact ⟨h, (C5_division_guards _ _ h).1 parse_zero, (C5_division_guards _ _ h).2 parse_zero⟩

/-- C4: for every input passing the guard, the efficiency score is the
weighted sum 0.4 × (productivityRate/10) + 0.4 × (taskCompletionRate/10)
+ 0.2 × distractionManagementScore; when productiveHours > 0 (the domain
where variant (a) is defined) the third component is
max(0, 1 − timeLost/productiveHours) × 10, and when productiveHours ≤ 0
the code takes it to be 0. -/
theorem C4_efficiencyScore (inp : InputData) (r : CalculationResults)
    (h : calculateResults inp = some r) :
    (0 < parseFloatOr0 inp.productiveHours →
      r.efficiencyScore =
        0.4 * (r.productivityRate / 10) + 0.4 * (r.taskCompletionRate / 10) +
          0.2 * (max 0 (1 - r.timeLost / parseFloatOr0 inp.productiveHours) * 10)) ∧
    (parseFloatOr0 inp.productiveHours ≤ 0 →
      r.efficiencyScore = 0.4 * (r.productivityRate / 10) + 0.4 * (r.taskCompletionRate / 10)) := by
  obtain ⟨-, rfl⟩ := calculateResults_some inp r h
  simp only [computeMetrics]
  constructor
  · intro hp
    rw [if_pos hp]
    ring
  · intro hp
    rw [if_neg (not_lt.mpr hp)]
    ring

theorem C4_efficiencyScore_witness :
    calculateResults ⟨"10", "5", "4", "3", "20", "", "10", "5"⟩ =
      some ⟨50, 75, 20 / 3, 5 / 6, 50 / 3, 3 / 5⟩ ∧
    (20 / 3 : ℚ) = 0.4 * (50 / 10) + 0.4 * (75 / 10) +
      0.2 * (max 0 (1 - 5 / 6 / parseFloatOr0 "5") * 10) := by
  refine ⟨calc_sample, (C4_efficiencyScore _ _ calc_sample).1 ?_⟩
  rw [parse_five]
  norm_num

/-- C7: whenever a metrics record is present, the improvement table is
exactly three rows in a fixed order — halve distractions, productive
hours × 1.15, task efficiency × 1.20 — each with its currency delta; at
10 distractions the first row shows optimized 5 and gain −5. -/
theorem C7_scenarios (inp : InputData) (res : Option CalculationResults)
    (r : CalculationResults) (h : res = some r) :
    improvementScenarios inp res =
      [ ⟨"Reduzir Distrações", parseFloatOr0 inp.distractions,
          parseFloatOr0 inp.distractions * 0.5, -(parseFloatOr0 inp.distractions * 0.5),
          parseFloatOr0 inp.distractions * 0.5 * parseFloatOr0 inp.recoveryTime / 60 *
            parseFloatOr0 inp.valuePerHour⟩,
        ⟨"Aumentar Tempo Produtivo", parseFloatOr0 inp.productiveHours,
          parseFloatOr0 inp.productiveHours * 1.15, parseFloatOr0 inp.productiveHours * 0.15,
          parseFloatOr0 inp.productiveHours * 0.15 * parseFloatOr0 inp.valuePerHour⟩,
        ⟨"Eficiência da Tarefa", r.taskEfficiency, r.taskEfficiency * 1.20,
          r.taskEfficiency * 0.20,
          parseFloatOr0 inp.productiveHours * 0.20 * parseFloatOr0 inp.valuePerHour⟩ ] ∧
    (improvementScenarios inp res).length = 3 ∧
    (parseFloatOr0 inp.distractions = 10 →
      parseFloatOr0 inp.distractions * 0.5 = 5 ∧ -(parseFloatOr0 inp.distractions * 0.5) = -5) := by
  subst h
  refine ⟨rfl, rfl, fun hd => ?_⟩
  rw [hd]
  norm_num

theorem C7_scenarios_witness :
    (improvementScenarios ⟨"10", "5", "4", "3", "20", "", "10", "5"⟩
      (some ⟨50, 75, 20 / 3, 5 / 6, 50 / 3, 3 / 5⟩)).length = 3 ∧
    parseFloatOr0 "10" * 0.5 = 5 ∧ -(parseFloatOr0 "10" * 0.5) = -5 := by
  obtain ⟨-, hlen, hinst⟩ :=
    C7_scenarios ⟨"10", "5", "4", "3", "20", "", "10", "5"⟩
      (some ⟨50, 75, 20 / 3, 5 / 6, 50 / 3, 3 / 5⟩) ⟨50, 75, 20 / 3, 5 / 6, 50 / 3, 3 / 5⟩ rfl
  exact ⟨hlen, hinst parse_ten⟩

/-- C6 as stated fails: edit total hours to 10, calculate, then edit
total hours to 0 — the state is reachable, the current parsed total
hours is ≤ 0, yet the stale metrics record is still present, because
`handleInputChange` never clears `results`. -/
theorem C6_counterexample :
    Reachable (step (step (step initialState (.editField .totalHours "10")) .calculate)
      (.editField .totalHours "0")) ∧
    parseFloatOr0 ((step (step (step initialState (.editField .totalHours "10")) .calculate)
      (.editField .totalHours "0")).inputs.totalHours) ≤ 0 ∧
    (step (step (step initialState (.editField .totalHours "10")) .calculate)
      (.editField .totalHours "0")).results ≠ none := by
  refine ⟨Reachable.next _ _ (Reachable.next _ _ (Reachable.next _ _ Reachable.init)),
    le_of_eq parse_zero, ?_⟩
  show calculateResults ⟨"10", "", "", "", "", "", "", ""⟩ ≠ none
  rw [show calculateResults ⟨"10", "", "", "", "", "", "", ""⟩ = some ⟨0, 0, 0, 0, 0, 0⟩ from by
    norm_num [calculateResults, computeMetrics, parse_ten, parse_empty]]
  simp

/-- C6 amended: the metrics record is absent initially and after every
reset; a calculation request with parsed total hours ≤ 0 makes it
absent; every calculation fully replaces it with the metrics of the
current inputs, independently of the previous record; and in every
reachable state a present record was produced wholesale by a calculation
on some inputs whose parsed total hours was positive.  (Editing a field
after a successful calculation does not clear the record, so the record
may be present while the currently edited total hours is ≤ 0.) -/
theorem C6_amended :
    initialState.results = none ∧
    (∀ s : AppState, (step s .reset).results = none) ∧
    (∀ s : AppState, parseFloatOr0 s.inputs.totalHours ≤ 0 → (step s .calculate).results = none) ∧
    (∀ s : AppState, (step s .calculate).results = calculateResults s.inputs) ∧
    (∀ s : AppState, Reachable s → s.results ≠ none →
      ∃ i : InputData, 0 < parseFloatOr0 i.totalHours ∧ s.results = calculateResults i) := by
  refine ⟨rfl, fun s => rfl, fun s h => ?_, fun s => rfl, fun s hs => ?_⟩
  · show calculateResults s.inputs = none
    rw [calculateResults, if_pos h]
  · induction hs with
    | init => intro hne; exact absurd rfl hne
    | next s e hr ih =>
      intro hne
      cases e with
      | editField f v => exact ih hne
      | toggleImprovements b => exact ih hne
      | setDecimals n => exact ih hne
      | reset => exact absurd rfl hne
      | calculate =>
        by_cases hg : parseFloatOr0 s.inputs.totalHours ≤ 0
        · refine absurd ?_ hne
          show calculateResults s.inputs = none
          rw [calculateResults, if_pos hg]
        · exact ⟨s.inputs, not_le.mp hg, rfl⟩

theorem C6_amended_witness :
    (step (⟨⟨"0", "5", "4", "3", "20", "", "10", "5"⟩, some ⟨1, 1, 1, 1, 1, 1⟩, 2, true⟩ :
      AppState) .calculate).results = none :=
  C6_amended.2.2.1 _ (le_of_eq parse_zero)

/-- Bounds on the composite score under the natural input ranges: total
hours positive, 0 ≤ productive hours ≤ total hours, completed tasks
nonnegative and at most the planned tasks when any are planned, and
nonnegative distraction figures. -/
theorem computeMetrics_score_bounds (t p pl c v d rt : ℚ) (ht : 0 < t) (hp0 : 0 ≤ p)
    (hpt : p ≤ t) (hc : 0 ≤ c) (hcp : 0 < pl → c ≤ pl) (hd : 0 ≤ d) (hrt : 0 ≤ rt) :
    0 ≤ (computeMetrics t p pl c v d rt).efficiencyScore ∧
      (computeMetrics t p pl c v d rt).efficiencyScore ≤ 10 := by
  have hscore : (computeMetrics t p pl c v d rt).efficiencyScore =
      p / t * 100 / 10 * 0.4 + (if pl > 0 then c / pl else 0) * 100 / 10 * 0.4 +
        (if p > 0 then max 0 (1 - d * rt / 60 / p) * 10 else 0) * 0.2 := rfl
  have hpr0 : 0 ≤ p / t := div_nonneg hp0 ht.le
  have hpr1 : p / t ≤ 1 := (div_le_one ht).mpr hpt
  have hL : 0 ≤ d * rt / 60 := div_nonneg (mul_nonneg hd hrt) (by norm_num)
  have htc0 : 0 ≤ (if pl > 0 then c / pl else 0) := by
    split_ifs with hpl
    · exact div_nonneg hc hpl.le
    · exact le_refl 0
  have htc1 : (if pl > 0 then c / pl else 0) ≤ 1 := by
    split_ifs with hpl
    · exact (div_le_one hpl).mpr (hcp hpl)
    · norm_num
  have hdm0 : 0 ≤ (if p > 0 then max 0 (1 - d * rt / 60 / p) * 10 else 0) := by
    split_ifs with hp
    · exact mul_nonneg (le_max_left _ _) (by norm_num)
    · exact le_refl 0
  have hdm1 : (if p > 0 then max 0 (1 - d * rt / 60 / p) * 10 else 0) ≤ 10 := by
    split_ifs with hp
    · have h2 : max (0 : ℚ) (1 - d * rt / 60 / p) ≤ 1 :=
        max_le (by norm_num) (by linarith [div_nonneg hL hp.le])
      linarith
    · norm_num
  rw [hscore]
  constructor <;> linarith

/-- C8 as stated fails: the raw inputs are not forced into natural
ranges, so with productiveHours 20 against totalHours 10 (and one task
planned and completed) the score is 14, outside 0–10. -/
theorem C8_counterexample :
    calculateResults ⟨"10", "20", "1", "1", "", "", "", ""⟩ =
      some ⟨200, 100, 14, 0, 0, 1 / 20⟩ ∧ ¬ ((14 : ℚ) ≤ 10) := by
  constructor
  · norm_num [calculateResults, computeMetrics, parse_ten, parse_twenty, parse_one, parse_empty,
      max_def]
  · norm_num

/-- C8 amended: for every input passing the guard whose parsed fields lie
in the natural ranges — 0 ≤ productiveHours ≤ totalHours, completedTasks
nonnegative and at most plannedTasks when plannedTasks > 0, distractions
and recovery minutes nonnegative — the efficiency score lies within 0 to
10 inclusive. -/
theorem C8_amended (inp : InputData) (r : CalculationResults)
    (h : calculateResults inp = some r)
    (hp0 : 0 ≤ parseFloatOr0 inp.productiveHours)
    (hpt : parseFloatOr0 inp.productiveHours ≤ parseFloatOr0 inp.totalHours)
    (hc : 0 ≤ parseFloatOr0 inp.completedTasks)
    (hcp : 0 < parseFloatOr0 inp.plannedTasks →
      parseFloatOr0 inp.completedTasks ≤ parseFloatOr0 inp.plannedTasks)
    (hd : 0 ≤ parseFloatOr0 inp.distractions)
    (hrt : 0 ≤ parseFloatOr0 inp.recoveryTime) :
    0 ≤ r.efficiencyScore ∧ r.efficiencyScore ≤ 10 := by
  obtain ⟨hg, rfl⟩ := calculateResults_some inp r h
  exact computeMetrics_score_bounds _ _ _ _ _ _ _ (not_le.mp hg) hp0 hpt hc hcp hd hrt

theorem C8_amended_witness :
    calculateResults ⟨"10", "5", "4", "3", "20", "", "10", "5"⟩ =
      some ⟨50, 75, 20 / 3, 5 / 6, 50 / 3, 3 / 5⟩ ∧
    (0 : ℚ) ≤ 20 / 3 ∧ (20 / 3 : ℚ) ≤ 10 := by
  refine ⟨calc_sample, C8_amended _ _ calc_sample ?_ ?_ ?_ ?_ ?_ ?_⟩
  all_goals norm_num [parse_five, parse_ten, parse_three, parse_four]

/-- C9: the computation is deterministic and stateless — two states
agreeing on the eight input fields produce identical results on a
calculation request, regardless of their other state (previous results,
display options), and recalculating immediately changes nothing. -/
theorem C9_deterministic :
    (∀ s1 s2 : AppState, s1.inputs = s2.inputs →
      (step s1 .calculate).results = (step s2 .calculate).results) ∧
    (∀ s : AppState, (step (step s .calculate) .calculate).results = (step s .calculate).results) := by
  constructor
  · intro s1 s2 h
    show calculateResults s1.inputs = calculateResults s2.inputs
    rw [h]
  · intro s
    rfl

theorem C9_deterministic_witness :
    (step (⟨⟨"10", "5", "4", "3", "20", "", "10", "5"⟩, none, 2, true⟩ : AppState)
        .calculate).results =
    (step (⟨⟨"10", "5", "4", "3", "20", "", "10", "5"⟩, some ⟨1, 1, 1, 1, 1, 1⟩, 0, false⟩ :
        AppState) .calculate).results :=
  C9_deterministic.1 _ _ rfl

/-- C10: the estimatedCostPerDistraction field never enters any formula —
changing it alone changes neither the metrics record nor the numeric
content of the improvement scenarios. -/
theorem C10_estimatedCost_no_effect (i : InputData) (c : String) :
    calculateResults { i with estimatedCostPerDistraction := c } = calculateResults i ∧
    improvementScenarios { i with estimatedCostPerDistraction := c }
        (calculateResults { i with estimatedCostPerDistraction := c }) =
      improvementScenarios i (calculateResults i) :=
  ⟨rfl, rfl⟩

end Produtividade
